import Mathlib

/-!
Shallow embedding of the upload pipeline in `backend/main.py` of the
VoiceAgent repository: the handler `upload_file` validates an uploaded
audio payload, transcribes it, summarizes the transcript with a
language-model completion call, synthesizes speech from the summary and
returns the concatenated audio bytes as a streaming response.

Modelling conventions:
- Upload bytes and audio chunks are `List Nat` (opaque byte sequences).
- `file.content_type` is `Option String` (`none` for an absent header).
  Python truthiness is modelled explicitly: an empty string is falsy.
- The provider clients (the AssemblyAI transcriber, the `llm` completion
  client and the ElevenLabs synthesizer) are abstracted as injected
  capability functions, as prescribed by the specification (§9).
  A provider call that raises a generic Python exception is modelled by
  `Except.error msg`, where `msg` is the text `str(e)` of the exception;
  the handler's outer `except Exception` clause turns such an error into
  a 500 response.  The deliberate `raise HTTPException` statements are
  modelled as direct error returns (they are re-raised unchanged by the
  `except HTTPException: raise` clause).
- The handler additionally returns the ordered list of provider calls it
  performed, each carrying the argument it was invoked with, so that
  claims of the form "provider X is (not) invoked" are statable.
-/

namespace VoiceAgent

/-- Terminal and non-terminal statuses of an AssemblyAI transcription
    result (`aai.TranscriptStatus`).  The handler only distinguishes
    `error` from everything else. -/
inductive TranscriptStatus where
  | queued
  | processing
  | completed
  | error
  deriving DecidableEq, Repr

/-- The transcription result object: a status, an optional transcript
    text (`transcript.text`) and an optional diagnostic message
    (`transcript.error`). -/
structure Transcript where
  status : TranscriptStatus
  text : Option String
  error : Option String
  deriving DecidableEq, Repr

/-- Python string interpolation of an optional string: `f"{x}"` renders
    `None` as the literal text `"None"`. -/
def pyOptStr : Option String → String
  | none => "None"
  | some s => s

/-- The injected provider capabilities (specification §9: `transcribe`,
    `complete`, `synthesize`).  `transcribe` and `synthesize` stand for
    the AssemblyAI and ElevenLabs clients constructed in
    `backend/main.py`.  Modelled from the spec: the language-model
    completion client `llm` is referenced by the handler
    (`llm.invoke(prompt)`) but its construction is absent from the
    source under `src/`; following §6/§9 it accepts a single text prompt
    and returns a single text completion (or raises).  Each capability
    returns `Except String α`: `error msg` models a raised exception
    with message `msg`. -/
structure Providers where
  transcribe : List Nat → Except String Transcript
  llm : String → Except String String
  synthesize : String → Except String (List (List Nat))

/-- One provider invocation performed by the handler, carrying the
    argument passed to the provider. -/
inductive CallEvent where
  | transcription (audio : List Nat)
  | summarization (prompt : String)
  | synthesis (text : String)
  deriving DecidableEq, Repr

/-- The HTTP response produced by the handler: either the streaming
    audio response (status 200) or an `HTTPException` turned into a JSON
    error body `{"detail": ...}`. -/
inductive Response where
  | streaming (mediaType : String) (body : List Nat)
  | httpError (status : Nat) (detail : String)
  deriving DecidableEq, Repr

/-- HTTP status code of a response (`StreamingResponse` defaults to
    200). -/
def Response.status : Response → Nat
  | .streaming _ _ => 200
  | .httpError s _ => s

/-- The `detail` field of an error response, `none` for the streaming
    success response. -/
def Response.detail : Response → Option String
  | .streaming _ _ => none
  | .httpError _ d => some d

/-- Python's `s.startswith(pre)`, phrased over the character lists of
    the two strings. -/
def pyStartsWith (s pre : String) : Bool :=
  pre.data.isPrefixOf s.data

/-- The media-type validation condition of `upload_file`:
    `file.content_type and not (file.content_type.startswith('audio/')
    or file.content_type in ['application/octet-stream'])`.
    Python truthiness makes an absent (`None`) or empty content type
    pass validation. -/
def contentTypeRejected : Option String → Bool
  | none => false
  | some c => (c != "") && !(pyStartsWith c "audio/" || c == "application/octet-stream")

/-- The 400 detail message produced when the declared content type is
    rejected. -/
def mediaTypeDetail (c : String) : String :=
  "File type \x27" ++ c ++ "\x27 may not be supported. Try uploading a .wav, .mp3, or .webm file."

/-- The fixed summarization prompt template prepended to the transcript
    text. -/
def promptTemplate : String :=
  "Summarize this in one very short sentence:\n\n"

/-- The body of `upload_file` after the content-type validation: empty
    check, transcription, summarization, synthesis, response.  Returns
    the response together with the ordered list of provider calls. -/
def runPipeline (p : Providers) (body : List Nat) : Response × List CallEvent :=
  if body.length = 0 then
    (.httpError 400 "Uploaded file is empty", [])
  else
    match p.transcribe body with
    | .error e => (.httpError 500 ("Internal server error: " ++ e), [.transcription body])
    | .ok tr =>
      if tr.status = .error then
        (.httpError 500 ("Transcription failed: " ++ pyOptStr tr.error), [.transcription body])
      else
        let prompt := promptTemplate ++ pyOptStr tr.text
        match p.llm prompt with
        | .error e =>
          (.httpError 500 ("Internal server error: " ++ e),
            [.transcription body, .summarization prompt])
        | .ok response =>
          match p.synthesize response with
          | .error e =>
            (.httpError 500 ("Internal server error: " ++ e),
              [.transcription body, .summarization prompt, .synthesis response])
          | .ok chunks =>
            (.streaming "audio/mpeg" chunks.flatten,
              [.transcription body, .summarization prompt, .synthesis response])

/-- The handler `upload_file` of `backend/main.py`, with the provider
    clients injected.  When the content type is rejected it is
    necessarily `some c` with `c` non-empty, so `ct.getD ""` in the
    detail message is exactly that `c`. -/
def upload_file (p : Providers) (body : List Nat) (ct : Option String) :
    Response × List CallEvent :=
  if contentTypeRejected ct then
    (.httpError 400 (mediaTypeDetail (ct.getD "")), [])
  else
    runPipeline p body

/-- Stateful provider capabilities: each call takes and returns an
    abstract provider-side state `σ`, so that statelessness of the
    pipeline itself is statable. -/
structure StProviders (σ : Type) where
  transcribe : σ → List Nat → Except String Transcript × σ
  llm : σ → String → Except String String × σ
  synthesize : σ → String → Except String (List (List Nat)) × σ

/-- `runPipeline` with the provider-side state threaded through the
    three provider calls in the order the handler performs them.  The
    handler itself holds no state of its own. -/
def runPipelineSt {σ : Type} (p : StProviders σ) (s : σ) (body : List Nat) :
    Response × σ :=
  if body.length = 0 then
    (.httpError 400 "Uploaded file is empty", s)
  else
    match p.transcribe s body with
    | (.error e, s1) => (.httpError 500 ("Internal server error: " ++ e), s1)
    | (.ok tr, s1) =>
      if tr.status = .error then
        (.httpError 500 ("Transcription failed: " ++ pyOptStr tr.error), s1)
      else
        let prompt := promptTemplate ++ pyOptStr tr.text
        match p.llm s1 prompt with
        | (.error e, s2) => (.httpError 500 ("Internal server error: " ++ e), s2)
        | (.ok response, s2) =>
          match p.synthesize s2 response with
          | (.error e, s3) => (.httpError 500 ("Internal server error: " ++ e), s3)
          | (.ok chunks, s3) => (.streaming "audio/mpeg" chunks.flatten, s3)

/-- `upload_file` over stateful providers. -/
def upload_file_st {σ : Type} (p : StProviders σ) (s : σ) (body : List Nat)
    (ct : Option String) : Response × σ :=
  if contentTypeRejected ct then
    (.httpError 400 (mediaTypeDetail (ct.getD "")), s)
  else
    runPipelineSt p s body

/-- A concrete deterministic provider bundle used to instantiate closed
    statements: transcription succeeds with text `"T"`, the completion
    call echoes its prompt, synthesis yields no chunks. -/
def stubProviders : Providers where
  transcribe := fun _ => .ok ⟨.completed, some "T", none⟩
  llm := fun prompt => .ok prompt
  synthesize := fun _ => .ok []

/-- The provider stubs of claim C1: transcription succeeds with text
    `"Hello there"`, the completion call echoes its prompt, synthesis
    yields the single chunk `b"AUDIO"` (bytes 65, 85, 68, 73, 79). -/
def c1Providers : Providers where
  transcribe := fun _ => .ok ⟨.completed, some "Hello there", none⟩
  llm := fun prompt => .ok prompt
  synthesize := fun _ => .ok [[65, 85, 68, 73, 79]]

/-- Claim C1: for every non-empty upload whose declared content type
    passes validation, with a transcription stub returning transcript
    text `"Hello there"`, an echoing completion stub and a synthesis
    stub yielding the single chunk `b"AUDIO"`, the handler returns the
    status-200 streaming response with media type `audio/mpeg` and body
    exactly `b"AUDIO"`, and the prompt passed to the completion stub
    contains the substring `"Hello there"`. -/
theorem upload_success_hello_there (body : List Nat) (ct : Option String)
    (hbody : body ≠ []) (hct : contentTypeRejected ct = false) :
    (upload_file c1Providers body ct).1 = .streaming "audio/mpeg" [65, 85, 68, 73, 79] ∧
    (upload_file c1Providers body ct).1.status = 200 ∧
    ∃ pre post,
      CallEvent.summarization (pre ++ "Hello there" ++ post) ∈
        (upload_file c1Providers body ct).2 := by
  have hlen : ¬ body.length = 0 := by simpa [List.length_eq_zero] using hbody
  have hrun : upload_file c1Providers body ct =
      (.streaming "audio/mpeg" [65, 85, 68, 73, 79],
       [.transcription body, .summarization (promptTemplate ++ "Hello there"),
        .synthesis (promptTemplate ++ "Hello there")]) := by
    simp [upload_file, hct, runPipeline, hlen, c1Providers, pyOptStr]
  refine ⟨by rw [hrun], by rw [hrun]; rfl, promptTemplate, "", ?_⟩
  rw [hrun]
  simp

/-- Closed instance of `upload_success_hello_there` at body `[0]` and an
    absent content type. -/
theorem upload_success_hello_there_witness :
    ([0] : List Nat) ≠ [] ∧ contentTypeRejected none = false ∧
    ((upload_file c1Providers [0] none).1 = .streaming "audio/mpeg" [65, 85, 68, 73, 79] ∧
     (upload_file c1Providers [0] none).1.status = 200 ∧
     ∃ pre post,
       CallEvent.summarization (pre ++ "Hello there" ++ post) ∈
         (upload_file c1Providers [0] none).2) :=
  ⟨by decide, rfl, upload_success_hello_there [0] none (by decide) rfl⟩

/-- Counterexample to claim C2 as stated: a zero-length upload whose
    declared content type `text/plain` fails validation is answered with
    the unsupported-media-type message, not the empty-payload message,
    because the handler checks the content type before the body length. -/
theorem empty_body_bad_type_counterexample :
    upload_file stubProviders [] (some "text/plain") =
      (.httpError 400 (mediaTypeDetail "text/plain"), []) ∧
    mediaTypeDetail "text/plain" ≠ "Uploaded file is empty" := by
  exact ⟨rfl, by decide⟩

/-- Claim C2 (amended): a zero-length upload whose declared content type
    passes validation is answered with 400 `Uploaded file is empty`; for
    every declared content type a zero-length upload is answered with
    status 400 and no provider is invoked. -/
theorem empty_body_rejected (p : Providers) (ct : Option String) :
    (contentTypeRejected ct = false →
      upload_file p [] ct = (.httpError 400 "Uploaded file is empty", [])) ∧
    (upload_file p [] ct).1.status = 400 ∧ (upload_file p [] ct).2 = [] := by
  by_cases hct : contentTypeRejected ct = true
  · refine ⟨fun h => by rw [h] at hct; exact absurd hct (by decide), ?_, ?_⟩
    · simp [upload_file, hct, Response.status]
    · simp [upload_file, hct]
  · have hct' : contentTypeRejected ct = false := by
      cases h : contentTypeRejected ct
      · rfl
      · exact absurd h hct
    refine ⟨fun _ => ?_, ?_, ?_⟩ <;>
      simp [upload_file, hct', runPipeline, Response.status]

/-- Closed instance of `empty_body_rejected` at an absent content
    type. -/
theorem empty_body_rejected_witness :
    upload_file stubProviders [] none = (.httpError 400 "Uploaded file is empty", []) ∧
    (upload_file stubProviders [] none).1.status = 400 ∧
    (upload_file stubProviders [] none).2 = [] :=
  ⟨(empty_body_rejected stubProviders none).1 rfl, (empty_body_rejected stubProviders none).2⟩

/-- Counterexample to claim C3 as stated: the empty string is a present
    declared content type that neither starts with `audio/` nor equals
    `application/octet-stream`, yet (Python truthiness treats `""` as
    falsy) validation accepts it and the pipeline runs: the request
    returns status 200 and providers are invoked. -/
theorem empty_content_type_counterexample :
    (some "" ≠ (none : Option String)) ∧
    pyStartsWith "" "audio/" = false ∧
    ("" : String) ≠ "application/octet-stream" ∧
    (upload_file stubProviders [1] (some "")).1.status = 200 ∧
    (upload_file stubProviders [1] (some "")).2 ≠ [] := by
  refine ⟨by decide, by decide, by decide, rfl, by decide⟩

/-- Claim C3 (amended): for every upload whose declared content type is
    present and non-empty, does not start with `audio/` and is not
    `application/octet-stream`, the handler returns 400 with the
    unsupported-media-type message and no provider is invoked. -/
theorem unsupported_media_type_rejected (p : Providers) (body : List Nat) (c : String)
    (hne : c ≠ "") (hpre : pyStartsWith c "audio/" = false)
    (hoct : c ≠ "application/octet-stream") :
    upload_file p body (some c) = (.httpError 400 (mediaTypeDetail c), []) := by
  have hrej : contentTypeRejected (some c) = true := by
    simp [contentTypeRejected, bne_iff_ne, hne, hpre, hoct]
  simp [upload_file, hrej]

/-- Closed instance of `unsupported_media_type_rejected` at content type
    `text/plain`. -/
theorem unsupported_media_type_rejected_witness :
    ("text/plain" : String) ≠ "" ∧
    pyStartsWith "text/plain" "audio/" = false ∧
    ("text/plain" : String) ≠ "application/octet-stream" ∧
    upload_file stubProviders [1] (some "text/plain") =
      (.httpError 400 (mediaTypeDetail "text/plain"), []) :=
  ⟨by decide, by decide, by decide,
    unsupported_media_type_rejected stubProviders [1] "text/plain"
      (by decide) (by decide) (by decide)⟩

/-- Claim C4: for every non-empty, validly-typed upload, if the
    transcription provider reports the terminal `error` status with
    diagnostic `d`, the handler returns 500 with detail
    `Transcription failed: d` and performs no further provider call. -/
theorem transcription_error_rejected (p : Providers) (body : List Nat) (ct : Option String)
    (tr : Transcript) (d : String)
    (hbody : body ≠ []) (hct : contentTypeRejected ct = false)
    (htr : p.transcribe body = .ok tr) (hstat : tr.status = .error)
    (herr : tr.error = some d) :
    upload_file p body ct =
      (.httpError 500 ("Transcription failed: " ++ d), [.transcription body]) := by
  have hlen : ¬ body.length = 0 := by simpa [List.length_eq_zero] using hbody
  simp [upload_file, hct, runPipeline, hlen, htr, hstat, herr, pyOptStr]

/-- Closed instance of `transcription_error_rejected` with diagnostic
    `"D"`. -/
theorem transcription_error_rejected_witness :
    upload_file
        { transcribe := fun _ => .ok ⟨.error, none, some "D"⟩,
          llm := fun prompt => .ok prompt,
          synthesize := fun _ => .ok [] }
        [1] none =
      (.httpError 500 ("Transcription failed: " ++ "D"), [.transcription [1]]) :=
  transcription_error_rejected _ [1] none ⟨.error, none, some "D"⟩ "D"
    (by decide) rfl rfl rfl rfl

/-- Claim C5: if the completion call raises an exception with message
    `m` (any generic exception inside the summarization step), the
    handler returns 500 with detail `Internal server error: m` and the
    synthesis provider is never invoked. -/
theorem summarization_exception_rejected (p : Providers) (body : List Nat)
    (ct : Option String) (tr : Transcript) (m : String)
    (hbody : body ≠ []) (hct : contentTypeRejected ct = false)
    (htr : p.transcribe body = .ok tr) (hstat : tr.status ≠ .error)
    (hllm : p.llm (promptTemplate ++ pyOptStr tr.text) = .error m) :
    upload_file p body ct =
      (.httpError 500 ("Internal server error: " ++ m),
       [.transcription body, .summarization (promptTemplate ++ pyOptStr tr.text)]) := by
  have hlen : ¬ body.length = 0 := by simpa [List.length_eq_zero] using hbody
  simp [upload_file, hct, runPipeline, hlen, htr, hstat, hllm]

/-- Closed instance of `summarization_exception_rejected` with
    exception message `"boom"`. -/
theorem summarization_exception_rejected_witness :
    upload_file
        { transcribe := fun _ => .ok ⟨.completed, some "T", none⟩,
          llm := fun _ => .error "boom",
          synthesize := fun _ => .ok [] }
        [1] none =
      (.httpError 500 ("Internal server error: " ++ "boom"),
       [.transcription [1], .summarization (promptTemplate ++ pyOptStr (some "T"))]) :=
  summarization_exception_rejected _ [1] none ⟨.completed, some "T", none⟩ "boom"
    (by decide) rfl rfl (by decide) rfl

/-- Claim C6: whenever the request reaches the synthesis step and the
    synthesis provider yields the chunk sequence `cs`, the response body
    is exactly the order-preserving concatenation of the chunks of
    `cs`. -/
theorem synthesis_chunks_concatenated (p : Providers) (body : List Nat)
    (ct : Option String) (tr : Transcript) (r : String) (cs : List (List Nat))
    (hbody : body ≠ []) (hct : contentTypeRejected ct = false)
    (htr : p.transcribe body = .ok tr) (hstat : tr.status ≠ .error)
    (hllm : p.llm (promptTemplate ++ pyOptStr tr.text) = .ok r)
    (hsyn : p.synthesize r = .ok cs) :
    (upload_file p body ct).1 = .streaming "audio/mpeg" cs.flatten := by
  have hlen : ¬ body.length = 0 := by simpa [List.length_eq_zero] using hbody
  simp [upload_file, hct, runPipeline, hlen, htr, hstat, hllm, hsyn]

/-- Closed instance of `synthesis_chunks_concatenated`: chunks
    `[b"AB", b"CD"]` produce body `b"ABCD"`. -/
theorem synthesis_chunks_concatenated_witness :
    (upload_file
        { transcribe := fun _ => .ok ⟨.completed, some "T", none⟩,
          llm := fun prompt => .ok prompt,
          synthesize := fun _ => .ok [[65, 66], [67, 68]] }
        [1] none).1 = .streaming "audio/mpeg" [65, 66, 67, 68] :=
  synthesis_chunks_concatenated _ [1] none ⟨.completed, some "T", none⟩
    (promptTemplate ++ pyOptStr (some "T")) [[65, 66], [67, 68]]
    (by decide) rfl rfl (by decide) rfl rfl

/-- Claim C7: whenever the request reaches the summarization step and
    the transcript text is `t`, the prompt passed to the completion
    provider is exactly the fixed template
    `"Summarize this in one very short sentence:\n\n"` followed by `t`
    verbatim, and no other prompt is ever submitted. -/
theorem summarization_prompt_exact (p : Providers) (body : List Nat)
    (ct : Option String) (tr : Transcript) (t : String)
    (hbody : body ≠ []) (hct : contentTypeRejected ct = false)
    (htr : p.transcribe body = .ok tr) (hstat : tr.status ≠ .error)
    (htext : tr.text = some t) :
    CallEvent.summarization (promptTemplate ++ t) ∈ (upload_file p body ct).2 ∧
    ∀ pr, CallEvent.summarization pr ∈ (upload_file p body ct).2 →
      pr = promptTemplate ++ t := by
  have hlen : ¬ body.length = 0 := by simpa [List.length_eq_zero] using hbody
  cases hllm : p.llm (promptTemplate ++ t) with
  | error e =>
    have heq : upload_file p body ct =
        (.httpError 500 ("Internal server error: " ++ e),
         [.transcription body, .summarization (promptTemplate ++ t)]) := by
      simp [upload_file, hct, runPipeline, hlen, htr, hstat, htext, pyOptStr, hllm]
    rw [heq]
    exact ⟨by simp, fun pr hpr => by simpa using hpr⟩
  | ok r =>
    cases hsyn : p.synthesize r with
    | error e =>
      have heq : upload_file p body ct =
          (.httpError 500 ("Internal server error: " ++ e),
           [.transcription body, .summarization (promptTemplate ++ t), .synthesis r]) := by
        simp [upload_file, hct, runPipeline, hlen, htr, hstat, htext, pyOptStr, hllm, hsyn]
      rw [heq]
      exact ⟨by simp, fun pr hpr => by simpa using hpr⟩
    | ok cs =>
      have heq : upload_file p body ct =
          (.streaming "audio/mpeg" cs.flatten,
           [.transcription body, .summarization (promptTemplate ++ t), .synthesis r]) := by
        simp [upload_file, hct, runPipeline, hlen, htr, hstat, htext, pyOptStr, hllm, hsyn]
      rw [heq]
      exact ⟨by simp, fun pr hpr => by simpa using hpr⟩

/-- Closed instance of `summarization_prompt_exact` at transcript text
    `"T"`. -/
theorem summarization_prompt_exact_witness :
    CallEvent.summarization (promptTemplate ++ "T") ∈
      (upload_file stubProviders [1] none).2 ∧
    ∀ pr, CallEvent.summarization pr ∈ (upload_file stubProviders [1] none).2 →
      pr = promptTemplate ++ "T" :=
  summarization_prompt_exact stubProviders [1] none ⟨.completed, some "T", none⟩ "T"
    (by decide) rfl rfl (by decide) rfl

/-- Claim C9: an upload with no declared content type is never rejected
    by the media-type validation (the only 400 it can receive is the
    empty-payload one), and a non-empty body always proceeds to the
    transcription call. -/
theorem absent_content_type_accepted (p : Providers) (body : List Nat) :
    ((upload_file p body none).1.status = 400 →
      (upload_file p body none).1.detail = some "Uploaded file is empty") ∧
    (body ≠ [] → CallEvent.transcription body ∈ (upload_file p body none).2) := by
  by_cases hb : body.length = 0
  · have hemp : body = [] := List.length_eq_zero.mp hb
    have heq : upload_file p body none = (.httpError 400 "Uploaded file is empty", []) := by
      simp [upload_file, contentTypeRejected, runPipeline, hb]
    rw [heq]
    exact ⟨fun _ => rfl, fun h => absurd hemp h⟩
  · cases htr : p.transcribe body with
    | error e =>
      have heq : upload_file p body none =
          (.httpError 500 ("Internal server error: " ++ e), [.transcription body]) := by
        simp [upload_file, contentTypeRejected, runPipeline, hb, htr]
      rw [heq]
      exact ⟨fun h => by simp [Response.status] at h, fun _ => by simp⟩
    | ok tr =>
      by_cases hstat : tr.status = .error
      · have heq : upload_file p body none =
            (.httpError 500 ("Transcription failed: " ++ pyOptStr tr.error),
             [.transcription body]) := by
          simp [upload_file, contentTypeRejected, runPipeline, hb, htr, hstat]
        rw [heq]
        exact ⟨fun h => by simp [Response.status] at h, fun _ => by simp⟩
      · cases hllm : p.llm (promptTemplate ++ pyOptStr tr.text) with
        | error e =>
          have heq : upload_file p body none =
              (.httpError 500 ("Internal server error: " ++ e),
               [.transcription body,
                .summarization (promptTemplate ++ pyOptStr tr.text)]) := by
            simp [upload_file, contentTypeRejected, runPipeline, hb, htr, hstat, hllm]
          rw [heq]
          exact ⟨fun h => by simp [Response.status] at h, fun _ => by simp⟩
        | ok r =>
          cases hsyn : p.synthesize r with
          | error e =>
            have heq : upload_file p body none =
                (.httpError 500 ("Internal server error: " ++ e),
                 [.transcription body,
                  .summarization (promptTemplate ++ pyOptStr tr.text),
                  .synthesis r]) := by
              simp [upload_file, contentTypeRejected, runPipeline, hb, htr, hstat, hllm, hsyn]
            rw [heq]
            exact ⟨fun h => by simp [Response.status] at h, fun _ => by simp⟩
          | ok cs =>
            have heq : upload_file p body none =
                (.streaming "audio/mpeg" cs.flatten,
                 [.transcription body,
                  .summarization (promptTemplate ++ pyOptStr tr.text),
                  .synthesis r]) := by
              simp [upload_file, contentTypeRejected, runPipeline, hb, htr, hstat, hllm, hsyn]
            rw [heq]
            exact ⟨fun h => by simp [Response.status] at h, fun _ => by simp⟩

/-- Closed instance of `absent_content_type_accepted`: the empty upload
    yields the empty-payload detail, and body `[1]` reaches
    transcription. -/
theorem absent_content_type_accepted_witness :
    (upload_file stubProviders [] none).1.detail = some "Uploaded file is empty" ∧
    CallEvent.transcription [1] ∈ (upload_file stubProviders [1] none).2 :=
  ⟨(absent_content_type_accepted stubProviders []).1 rfl,
   (absent_content_type_accepted stubProviders [1]).2 (by decide)⟩

/-- Claim C10: when transcription succeeds (`completed` status) with an
    empty or absent transcript text, the pipeline raises no distinct
    error: the summarization prompt embeds `""` or the literal `"None"`
    after the fixed instruction, and the summarization and synthesis
    steps both run. -/
theorem empty_transcript_proceeds (p : Providers) (body : List Nat)
    (ct : Option String) (tr : Transcript) (r : String) (cs : List (List Nat))
    (hbody : body ≠ []) (hct : contentTypeRejected ct = false)
    (htr : p.transcribe body = .ok tr) (hstat : tr.status = .completed)
    (htext : tr.text = none ∨ tr.text = some "")
    (hllm : p.llm (promptTemplate ++ pyOptStr tr.text) = .ok r)
    (hsyn : p.synthesize r = .ok cs) :
    (pyOptStr tr.text = "None" ∨ pyOptStr tr.text = "") ∧
    upload_file p body ct =
      (.streaming "audio/mpeg" cs.flatten,
       [.transcription body, .summarization (promptTemplate ++ pyOptStr tr.text),
        .synthesis r]) := by
  have hlen : ¬ body.length = 0 := by simpa [List.length_eq_zero] using hbody
  have hne : tr.status ≠ .error := by rw [hstat]; decide
  constructor
  · cases htext with
    | inl h => exact Or.inl (by rw [h]; rfl)
    | inr h => exact Or.inr (by rw [h]; rfl)
  · simp [upload_file, hct, runPipeline, hlen, htr, hne, hllm, hsyn]

/-- Closed instance of `empty_transcript_proceeds` with an absent
    transcript text: the prompt embeds the literal `"None"`. -/
theorem empty_transcript_proceeds_witness :
    (pyOptStr (none : Option String) = "None" ∨ pyOptStr (none : Option String) = "") ∧
    upload_file
        { transcribe := fun _ => .ok ⟨.completed, none, none⟩,
          llm := fun prompt => .ok prompt,
          synthesize := fun _ => .ok [[7]] }
        [1] none =
      (.streaming "audio/mpeg" ([[7]] : List (List Nat)).flatten,
       [.transcription [1], .summarization (promptTemplate ++ pyOptStr none),
        .synthesis (promptTemplate ++ pyOptStr none)]) :=
  empty_transcript_proceeds _ [1] none ⟨.completed, none, none⟩
    (promptTemplate ++ pyOptStr none) [[7]]
    (by decide) rfl rfl rfl (Or.inl rfl) rfl rfl

/-- When every provider is deterministic and stateless (its output is
    independent of the provider-side state, which it leaves unchanged),
    the stateful handler computes the pure handler's response and does
    not touch the state: the pipeline itself holds no hidden state. -/
theorem upload_file_st_eq_pure {σ : Type} (p : StProviders σ)
    (ft : List Nat → Except String Transcript)
    (fl : String → Except String String)
    (fs : String → Except String (List (List Nat)))
    (hT : ∀ s x, p.transcribe s x = (ft x, s))
    (hL : ∀ s x, p.llm s x = (fl x, s))
    (hS : ∀ s x, p.synthesize s x = (fs x, s))
    (s : σ) (body : List Nat) (ct : Option String) :
    upload_file_st p s body ct =
      ((upload_file ⟨ft, fl, fs⟩ body ct).1, s) := by
  by_cases hct : contentTypeRejected ct = true
  · simp [upload_file_st, upload_file, hct]
  · rw [upload_file_st, upload_file, if_neg hct, if_neg hct]
    by_cases hb : body.length = 0
    · simp [runPipelineSt, runPipeline, hb]
    · rw [runPipelineSt, runPipeline, if_neg hb, if_neg hb, hT]
      cases hft : ft body with
      | error e => simp [hft]
      | ok tr =>
        by_cases hstat : tr.status = .error
        · simp [hft, hstat]
        · cases hfl : fl (promptTemplate ++ pyOptStr tr.text) with
          | error e => simp [hft, hstat, hL, hfl]
          | ok r =>
            cases hfs : fs r with
            | error e => simp [hft, hstat, hL, hfl, hS, hfs]
            | ok cs => simp [hft, hstat, hL, hfl, hS, hfs]

/-- Claim C8: with deterministic stateless providers, running the
    handler twice on identical upload bytes and content type yields
    identical responses, and the provider-side state observed by the
    second call is unchanged by the first. -/
theorem upload_idempotent {σ : Type} (p : StProviders σ)
    (ft : List Nat → Except String Transcript)
    (fl : String → Except String String)
    (fs : String → Except String (List (List Nat)))
    (hT : ∀ s x, p.transcribe s x = (ft x, s))
    (hL : ∀ s x, p.llm s x = (fl x, s))
    (hS : ∀ s x, p.synthesize s x = (fs x, s))
    (s0 : σ) (body : List Nat) (ct : Option String) :
    (upload_file_st p ((upload_file_st p s0 body ct).2) body ct).1 =
      (upload_file_st p s0 body ct).1 ∧
    (upload_file_st p s0 body ct).2 = s0 := by
  simp [upload_file_st_eq_pure p ft fl fs hT hL hS]

/-- The stubs of `stubProviders` lifted to stateful providers over a
    `Nat` state that they neither read nor write. -/
def stubProvidersSt : StProviders Nat where
  transcribe := fun s _ => (.ok ⟨.completed, some "T", none⟩, s)
  llm := fun s prompt => (.ok prompt, s)
  synthesize := fun s _ => (.ok [], s)

/-- Closed instance of `upload_idempotent` at state 0, body `[1]` and an
    absent content type. -/
theorem upload_idempotent_witness :
    (upload_file_st stubProvidersSt ((upload_file_st stubProvidersSt 0 [1] none).2) [1] none).1 =
      (upload_file_st stubProvidersSt 0 [1] none).1 ∧
    (upload_file_st stubProvidersSt 0 [1] none).2 = 0 :=
  upload_idempotent stubProvidersSt
    (fun _ => .ok ⟨.completed, some "T", none⟩)
    (fun prompt => .ok prompt)
    (fun _ => .ok [])
    (fun _ _ => rfl) (fun _ _ => rfl) (fun _ _ => rfl)
    0 [1] none

end VoiceAgent
